import Mathlib

/-!
# PhotoWeave (`src/app.py`) — verification of the stitching pipeline

Shallow embedding of the image-stitching script `src/app.py`.  Images are
dense grids of abstract pixels; the external vision-library primitives
(SIFT detection, brute-force cross-check matching, RANSAC homography
estimation, perspective warp sampling, color-space conversion) are
parameters collected in `CVLib`, since the repository delegates them to
OpenCV.  All glue logic — the match-count guard, canvas sizing, the
overlay paste, `standardize_image`'s arithmetic, and the Streamlit
fold/error-handling flow — is embedded concretely from the source.
-/

/-- An image: a dense `height × width` grid of pixels of type `α`
(`np.ndarray` of shape `(height, width, 3)`; a pixel is one `α` value). -/
structure Img (α : Type) where
  height : Nat
  width : Nat
  pix : Nat → Nat → α

/-- A 2-D point (`cv2.KeyPoint.pt`), with exact rational coordinates. -/
def Pt : Type := ℚ × ℚ

/-- A keypoint as used by the code: only its location `pt` is read. -/
structure Keypoint where
  pt : Pt

/-- A `cv2.DMatch`: indices into the two keypoint lists plus a distance. -/
structure DMatch where
  queryIdx : Nat
  trainIdx : Nat
  distance : ℚ
deriving DecidableEq

/-- A 3×3 projective transform (`cv2.findHomography` result matrix). -/
def Homography : Type := Fin 3 → Fin 3 → ℚ

/-- The external vision library (OpenCV): the five primitives `app.py`
calls.  `α` is the pixel type, `δ` the descriptor type.
`findHomography` returns the optional 3×3 matrix and the inlier mask,
mirroring `cv2.findHomography`'s `(H, status)` pair where `H` may be
`None`.  `warpSample` gives the pixel that `cv2.warpPerspective` writes
at a given output coordinate. -/
structure CVLib (α δ : Type) where
  bgr2rgb : α → α
  rgb2gray : α → α
  detect : Img α → List Keypoint × List δ
  bfmatch : List δ → List δ → List DMatch
  findHomography : List Pt → List Pt → ℚ → Option Homography × List Bool
  warpSample : Img α → Homography → Nat → Nat → α

/-- `cv2.cvtColor`: a pixel-wise conversion; dimensions are unchanged. -/
def cvtImage {α : Type} (f : α → α) (im : Img α) : Img α :=
  ⟨im.height, im.width, fun r c => f (im.pix r c)⟩

/-- `result[0:top.height, 0:top.width] = top`: paste `top` at the
top-left corner of `base`; pasted pixels take precedence. -/
def paste {α : Type} (base top : Img α) : Img α :=
  ⟨base.height, base.width, fun r c =>
    if r < top.height ∧ c < top.width then top.pix r c else base.pix r c⟩

/-- Keypoints and descriptors of one input image: grayscale of the
RGB-converted photo fed to the detector
(`descriptor.detectAndCompute(train_photo_gray, None)`). -/
def detectOf {α δ : Type} (cv : CVLib α δ) (im : Img α) : List Keypoint × List δ :=
  cv.detect (cvtImage cv.rgb2gray (cvtImage cv.bgr2rgb im))

/-- `key_points_matching`: brute-force cross-check matching followed by
`sorted(best_matches, key=lambda x: x.distance)` (a stable sort,
ascending by distance; nothing is filtered out). -/
def key_points_matching {δ : Type} (bfmatch : List δ → List δ → List DMatch)
    (features_train features_query : List δ) : List DMatch :=
  List.insertionSort (fun a b => a.distance ≤ b.distance)
    (bfmatch features_train features_query)

/-- The sorted match list `stitch_images` computes for a pair of images. -/
def matchesOf {α δ : Type} (cv : CVLib α δ) (train_image query_image : Img α) :
    List DMatch :=
  key_points_matching cv.bfmatch (detectOf cv train_image).2 (detectOf cv query_image).2

/-- `np.float32([keypoints_train_img[m.queryIdx] for m in matchList])`:
the train-side point of every match (out-of-range indices yield a
default point; the matcher only produces in-range indices). -/
def points_train (keypoints_train_img : List Keypoint) (matchList : List DMatch) :
    List Pt :=
  matchList.map fun m => (keypoints_train_img.getD m.queryIdx ⟨((0 : ℚ), (0 : ℚ))⟩).pt

/-- `np.float32([keypoints_query_img[m.trainIdx] for m in matchList])`. -/
def points_query (keypoints_query_img : List Keypoint) (matchList : List DMatch) :
    List Pt :=
  matchList.map fun m => (keypoints_query_img.getD m.trainIdx ⟨((0 : ℚ), (0 : ℚ))⟩).pt

/-- `homography_stitching`: when more than 4 matches exist, call the
robust solver on all match correspondences and return
`(matchList, H, status)`; otherwise return `None`. -/
def homography_stitching
    (findHomography : List Pt → List Pt → ℚ → Option Homography × List Bool)
    (keypoints_train_img keypoints_query_img : List Keypoint)
    (matchList : List DMatch) (reprojThresh : ℚ) :
    Option (List DMatch × Option Homography × List Bool) :=
  if 4 < matchList.length then
    let hs := findHomography (points_train keypoints_train_img matchList)
      (points_query keypoints_query_img matchList) reprojThresh
    some (matchList, hs.1, hs.2)
  else
    none

/-- Outcome of one `stitch_images` call: the `None` failure signal
(fewer than 5 matches), a composited panorama, or an uncaught exception
(`cv2.warpPerspective` called with a `None` homography matrix). -/
inductive StitchOutcome (α : Type) where
  | noneSignal : StitchOutcome α
  | panorama : Img α → StitchOutcome α
  | crash : StitchOutcome α
deriving Inhabited

/-- Whether the outcome is a successful panorama. -/
def StitchOutcome.isPanorama {α : Type} : StitchOutcome α → Bool
  | .panorama _ => true
  | _ => false

/-- The panorama image of a successful outcome (default otherwise). -/
def StitchOutcome.getImg {α : Type} (d : Img α) : StitchOutcome α → Img α
  | .panorama img => img
  | _ => d

/-- `stitch_images(train_image, query_image)`: color-convert both
inputs, detect and match features, guard on the match count, estimate
the homography, warp the train photo onto a canvas of width
`query.width + train.width` and height `max query.height train.height`,
and paste the query photo at the top-left.  Returns `noneSignal` when
`homography_stitching` returns `None`; reaches `crash` when the solver
returned no matrix and the code passes `None` to `cv2.warpPerspective`. -/
def stitch_images {α δ : Type} (cv : CVLib α δ) (train_image query_image : Img α) :
    StitchOutcome α :=
  let train_photo := cvtImage cv.bgr2rgb train_image
  let query_photo := cvtImage cv.bgr2rgb query_image
  let keypoints_train_img := (detectOf cv train_image).1
  let keypoints_query_img := (detectOf cv query_image).1
  let matchList := matchesOf cv train_image query_image
  match homography_stitching cv.findHomography keypoints_train_img
      keypoints_query_img matchList (4 : ℚ) with
  | none => .noneSignal
  | some (_, none, _) => .crash
  | some (_, some h, _) =>
      let width := query_photo.width + train_photo.width
      let height := max query_photo.height train_photo.height
      let result : Img α := ⟨height, width, fun r c => cv.warpSample train_photo h r c⟩
      .panorama (paste result query_photo)

/-- `TARGET_WIDTH = 1280`. -/
def TARGET_WIDTH : Nat := 1280

/-- `TARGET_HEIGHT = 720`. -/
def TARGET_HEIGHT : Nat := 720

/-- `scale_factor = min(target_width / w, target_height / h)` (exact
rational arithmetic in place of Python floats). -/
def scale_factor (w h target_width target_height : Nat) : ℚ :=
  min ((target_width : ℚ) / (w : ℚ)) ((target_height : ℚ) / (h : ℚ))

/-- `new_width = int(w * scale_factor)` (truncation; the value is
non-negative, so `int` is the floor). -/
def new_width (w h target_width target_height : Nat) : Nat :=
  (⌊(w : ℚ) * scale_factor w h target_width target_height⌋).toNat

/-- `new_height = int(h * scale_factor)`. -/
def new_height (w h target_width target_height : Nat) : Nat :=
  (⌊(h : ℚ) * scale_factor w h target_width target_height⌋).toNat

/-- `y_offset = (target_height - new_height) // 2`, over ℤ as in Python
(for a non-negative numerator every division convention agrees). -/
def y_offset (w h target_width target_height : Nat) : ℤ :=
  ((target_height : ℤ) - (new_height w h target_width target_height : ℤ)) / 2

/-- `x_offset = (target_width - new_width) // 2`. -/
def x_offset (w h target_width target_height : Nat) : ℤ :=
  ((target_width : ℤ) - (new_width w h target_width target_height : ℤ)) / 2

/-- `standardize_image`: scale to fit the target box preserving aspect
ratio, then paste centered on a black canvas of exactly the target
size.  `resizeSample im nw nh r c` is the pixel `cv2.resize` produces at
`(r, c)` when resizing `im` to `(nw, nh)`; `black` is the pixel value of
`np.zeros`. -/
def standardize_image {α : Type} (resizeSample : Img α → Nat → Nat → Nat → Nat → α)
    (black : α) (image : Img α) (target_width target_height : Nat) : Img α :=
  let w := image.width
  let h := image.height
  let nw := new_width w h target_width target_height
  let nh := new_height w h target_width target_height
  let resized_image : Img α := ⟨nh, nw, fun r c => resizeSample image nw nh r c⟩
  let yo := (y_offset w h target_width target_height).toNat
  let xo := (x_offset w h target_width target_height).toNat
  ⟨target_height, target_width, fun r c =>
    if yo ≤ r ∧ r < yo + nh ∧ xo ≤ c ∧ c < xo + nw then
      resized_image.pix (r - yo) (c - xo)
    else black⟩

/-- Result of the iterative stitching loop (`for i in range(1, len(images))`):
the final panorama, the halt on a `None` return (`st.error` + `break`),
or an uncaught exception escaping the loop. -/
inductive FoldResult (α : Type) where
  | ok : Img α → FoldResult α
  | failed : FoldResult α
  | crashed : FoldResult α

/-- The loop body: starting from `stitched_image = images[0]`, stitch
with each remaining image in upload order; stop at the first failure.
Also counts how many times `stitch_images` was invoked. -/
def stitchFold {α δ : Type} (cv : CVLib α δ) :
    Img α → List (Img α) → FoldResult α × Nat
  | acc, [] => (.ok acc, 0)
  | acc, x :: xs =>
    match stitch_images cv acc x with
    | .noneSignal => (.failed, 1)
    | .crash => (.crashed, 1)
    | .panorama p =>
        let r := stitchFold cv p xs
        (r.1, r.2 + 1)

/-- Observable outcome of one Streamlit run: which error message was
shown, what was displayed as the stitched result, what file content the
download button offers, and whether the run died on an exception. -/
structure RunOutput (α : Type) where
  decodeError : Bool
  stitchError : Bool
  displayed : Option (Img α)
  download : Option (Img α)
  crashed : Bool
deriving Inhabited

/-- The run with no uploads / an early halt: nothing shown. -/
def emptyRun {α : Type} : RunOutput α :=
  ⟨false, false, none, none, false⟩

/-- The Streamlit flow on the decoded uploads (`cv2.imdecode` returns
`None` on a malformed stream, hence `Option (Img α)` per upload):
if any decode failed, show the decode error and stop before stitching;
otherwise fold `stitch_images` over the images, and on success display
the result (converted BGR→RGB for `PIL.Image.fromarray`) and offer the
raw stitched array for download.  The second component counts
`stitch_images` invocations. -/
def runPipeline {α δ : Type} (cv : CVLib α δ) (decoded : List (Option (Img α))) :
    RunOutput α × Nat :=
  match decoded with
  | [] => (emptyRun, 0)
  | d :: ds =>
    if (d :: ds).any (fun o => o.isNone) then
      ({ emptyRun with decodeError := true }, 0)
    else
      match (d :: ds).reduceOption with
      | [] => (emptyRun, 0)
      | i0 :: rest =>
        match stitchFold cv i0 rest with
        | (.ok img, n) =>
            (⟨false, false, some (cvtImage cv.bgr2rgb img), some img, false⟩, n)
        | (.failed, n) => ({ emptyRun with stitchError := true }, n)
        | (.crashed, n) => ({ emptyRun with crashed := true }, n)

/-- A concrete 2×3 test image with constant pixel value 7. -/
def imgA : Img Nat := ⟨2, 3, fun _ _ => 7⟩

/-- A concrete 4×5 test image whose pixel at `(r, c)` is `10 * r + c`. -/
def imgB : Img Nat := ⟨4, 5, fun r c => 10 * r + c⟩

/-- A concrete 2000×4000 test image (the spec's letterboxing example). -/
def img4000 : Img Nat := ⟨2000, 4000, fun r c => r + c⟩

/-- Five keypoints at distinct rational locations. -/
def fiveKeypoints : List Keypoint :=
  [⟨((0 : ℚ), (0 : ℚ))⟩, ⟨((1 : ℚ), (0 : ℚ))⟩, ⟨((0 : ℚ), (1 : ℚ))⟩,
   ⟨((2 : ℚ), (1 : ℚ))⟩, ⟨((1 : ℚ), (2 : ℚ))⟩]

/-- Five matches with distinct, deliberately unsorted distances. -/
def fiveMatches : List DMatch :=
  [⟨0, 0, 3⟩, ⟨1, 1, 1⟩, ⟨2, 2, 2⟩, ⟨3, 3, 5⟩, ⟨4, 4, 4⟩]

/-- A concrete library whose matcher finds no matches at all
(e.g. two images with no shared content). -/
def cvFew : CVLib Nat Nat where
  bgr2rgb := fun p => p + 100
  rgb2gray := fun p => p / 3
  detect := fun _ => (fiveKeypoints, [0, 1, 2, 3, 4])
  bfmatch := fun _ _ => []
  findHomography := fun _ _ _ => (none, [])
  warpSample := fun im _ r c => im.pix r c

/-- A concrete library whose matcher finds 5 matches but whose robust
solver fails to produce a homography matrix (`H = None`). -/
def cvBad : CVLib Nat Nat where
  bgr2rgb := fun p => p + 100
  rgb2gray := fun p => p / 3
  detect := fun _ => (fiveKeypoints, [0, 1, 2, 3, 4])
  bfmatch := fun _ _ => fiveMatches
  findHomography := fun _ _ _ => (none, [])
  warpSample := fun im _ r c => im.pix r c

/-- A concrete library whose matcher finds 5 matches and whose solver
returns a homography, so stitching succeeds. -/
def cvGood : CVLib Nat Nat where
  bgr2rgb := fun p => p + 100
  rgb2gray := fun p => p / 3
  detect := fun _ => (fiveKeypoints, [0, 1, 2, 3, 4])
  bfmatch := fun _ _ => fiveMatches
  findHomography := fun _ _ _ => (some (fun _ _ => 1), List.replicate 5 true)
  warpSample := fun im _ r c => im.pix (r / 2) (c / 2)

instance : IsTotal DMatch fun a b => a.distance ≤ b.distance :=
  ⟨fun a b => le_total a.distance b.distance⟩

instance : IsTrans DMatch fun a b => a.distance ≤ b.distance :=
  ⟨fun _ _ _ hab hbc => le_trans hab hbc⟩

lemma homography_stitching_eq_none_iff
    (findHomography : List Pt → List Pt → ℚ → Option Homography × List Bool)
    (kpT kpQ : List Keypoint) (matchList : List DMatch) (reprojThresh : ℚ) :
    homography_stitching findHomography kpT kpQ matchList reprojThresh = none ↔
      matchList.length ≤ 4 := by
  unfold homography_stitching
  split_ifs with h
  · simp only [reduceCtorEq, false_iff]
    omega
  · simp only [true_iff]
    omega

lemma homography_stitching_eq_some
    (findHomography : List Pt → List Pt → ℚ → Option Homography × List Bool)
    (kpT kpQ : List Keypoint) (matchList : List DMatch) (reprojThresh : ℚ)
    (h : 4 < matchList.length) :
    homography_stitching findHomography kpT kpQ matchList reprojThresh =
      some (matchList,
        (findHomography (points_train kpT matchList) (points_query kpQ matchList)
          reprojThresh).1,
        (findHomography (points_train kpT matchList) (points_query kpQ matchList)
          reprojThresh).2) := by
  unfold homography_stitching
  rw [if_pos h]

lemma stitch_images_eq_noneSignal {α δ : Type} (cv : CVLib α δ) (t q : Img α)
    (h : (matchesOf cv t q).length ≤ 4) :
    stitch_images cv t q = .noneSignal := by
  simp only [stitch_images]
  rw [(homography_stitching_eq_none_iff _ _ _ _ _).mpr h]

lemma stitch_images_eq_crash {α δ : Type} (cv : CVLib α δ) (t q : Img α)
    (hlen : 4 < (matchesOf cv t q).length)
    (hH : (cv.findHomography
        (points_train (detectOf cv t).1 (matchesOf cv t q))
        (points_query (detectOf cv q).1 (matchesOf cv t q)) 4).1 = none) :
    stitch_images cv t q = .crash := by
  simp only [stitch_images]
  rw [homography_stitching_eq_some _ _ _ _ _ hlen, hH]

lemma stitch_images_eq_panorama {α δ : Type} (cv : CVLib α δ) (t q : Img α)
    (H : Homography) (hlen : 4 < (matchesOf cv t q).length)
    (hH : (cv.findHomography
        (points_train (detectOf cv t).1 (matchesOf cv t q))
        (points_query (detectOf cv q).1 (matchesOf cv t q)) 4).1 = some H) :
    stitch_images cv t q =
      .panorama (paste
        ⟨max (cvtImage cv.bgr2rgb q).height (cvtImage cv.bgr2rgb t).height,
         (cvtImage cv.bgr2rgb q).width + (cvtImage cv.bgr2rgb t).width,
         fun r c => cv.warpSample (cvtImage cv.bgr2rgb t) H r c⟩
        (cvtImage cv.bgr2rgb q)) := by
  simp only [stitch_images]
  rw [homography_stitching_eq_some _ _ _ _ _ hlen, hH]

/-- C1: the pairwise stitch computes a homography only when the
cross-checked match set has more than 4 entries; `stitch_images`
returns the failure signal `None` exactly when fewer than 5 matches
exist (`homography_stitching` returns `None` under the same and only
the same condition). -/
theorem stitch_fails_iff_at_most_four_matches {α δ : Type} (cv : CVLib α δ)
    (t q : Img α) :
    (stitch_images cv t q = .noneSignal ↔ (matchesOf cv t q).length ≤ 4) ∧
    (homography_stitching cv.findHomography (detectOf cv t).1 (detectOf cv q).1
        (matchesOf cv t q) 4 = none ↔ (matchesOf cv t q).length ≤ 4) := by
  refine ⟨⟨?_, stitch_images_eq_noneSignal cv t q⟩,
    homography_stitching_eq_none_iff _ _ _ _ _⟩
  intro hs
  by_contra hlen
  push_neg at hlen
  rcases hH : (cv.findHomography
      (points_train (detectOf cv t).1 (matchesOf cv t q))
      (points_query (detectOf cv q).1 (matchesOf cv t q)) 4).1 with _ | H
  · rw [stitch_images_eq_crash cv t q hlen hH] at hs
    exact StitchOutcome.noConfusion hs
  · rw [stitch_images_eq_panorama cv t q H hlen hH] at hs
    exact StitchOutcome.noConfusion hs

/-- C2 counterexample: a concrete run with 5 matches in which the
robust solver returns no homography matrix; `stitch_images` does not
signal a graceful error — it reaches the warp call with a `None`
homography, an uncaught exception.  This refutes the claim that a
solver failure is surfaced as a `StitchError` message. -/
theorem homography_failure_not_graceful_counterexample :
    4 < (matchesOf cvBad imgA imgB).length ∧
    (cvBad.findHomography
        (points_train (detectOf cvBad imgA).1 (matchesOf cvBad imgA imgB))
        (points_query (detectOf cvBad imgB).1 (matchesOf cvBad imgA imgB)) 4).1
      = none ∧
    stitch_images cvBad imgA imgB = .crash := by
  refine ⟨?_, rfl, rfl⟩
  rw [show (matchesOf cvBad imgA imgB).length = 5 from rfl]
  omega

/-- C2 (amended): for every pair with more than 4 matches for which the
robust solver returns no 3×3 matrix, `stitch_images` proceeds to the
warp call with the `None` homography and the run crashes with an
uncaught exception; no user-visible `StitchError` message is produced. -/
theorem homography_failure_crashes {α δ : Type} (cv : CVLib α δ) (t q : Img α)
    (hlen : 4 < (matchesOf cv t q).length)
    (hH : (cv.findHomography
        (points_train (detectOf cv t).1 (matchesOf cv t q))
        (points_query (detectOf cv q).1 (matchesOf cv t q)) 4).1 = none) :
    stitch_images cv t q = .crash :=
  stitch_images_eq_crash cv t q hlen hH

/-- C2 amended-claim witness: the hypotheses of
`homography_failure_crashes` hold at a concrete input. -/
theorem homography_failure_crashes_witness :
    4 < (matchesOf cvBad imgA imgB).length ∧
    stitch_images cvBad imgA imgB = .crash :=
  ⟨by rw [show (matchesOf cvBad imgA imgB).length = 5 from rfl]; omega,
   homography_failure_crashes cvBad imgA imgB
     (by rw [show (matchesOf cvBad imgA imgB).length = 5 from rfl]; omega) rfl⟩

lemma isPanorama_shape {α δ : Type} (cv : CVLib α δ) (t q d : Img α)
    (h : (stitch_images cv t q).isPanorama = true) :
    ((stitch_images cv t q).getImg d).width = q.width + t.width ∧
    ((stitch_images cv t q).getImg d).height = max q.height t.height ∧
    (∀ r c : Nat, r < q.height → c < q.width →
      ((stitch_images cv t q).getImg d).pix r c = cv.bgr2rgb (q.pix r c)) := by
  by_cases hlen : 4 < (matchesOf cv t q).length
  · rcases hH : (cv.findHomography
        (points_train (detectOf cv t).1 (matchesOf cv t q))
        (points_query (detectOf cv q).1 (matchesOf cv t q)) 4).1 with _ | H
    · rw [stitch_images_eq_crash cv t q hlen hH] at h
      exact absurd h (by simp [StitchOutcome.isPanorama])
    · rw [stitch_images_eq_panorama cv t q H hlen hH]
      refine ⟨rfl, rfl, fun r c hr hc => ?_⟩
      show (if r < (cvtImage cv.bgr2rgb q).height ∧ c < (cvtImage cv.bgr2rgb q).width
            then (cvtImage cv.bgr2rgb q).pix r c
            else cv.warpSample (cvtImage cv.bgr2rgb t) H r c) = cv.bgr2rgb (q.pix r c)
      rw [if_pos ⟨hr, hc⟩]
      rfl
  · rw [stitch_images_eq_noneSignal cv t q (by omega)] at h
    exact absurd h (by simp [StitchOutcome.isPanorama])

/-- C3: every successful pairwise stitch produces a canvas of width
`query.width + train.width` and height `max query.height train.height`;
in particular a successful self-stitch yields a canvas at least as tall,
at least as wide, and hence no smaller in its larger dimension than the
input. -/
theorem stitched_canvas_dimensions {α δ : Type} (cv : CVLib α δ) (d : Img α) :
    (∀ t q : Img α, (stitch_images cv t q).isPanorama = true →
       ((stitch_images cv t q).getImg d).width = q.width + t.width ∧
       ((stitch_images cv t q).getImg d).height = max q.height t.height) ∧
    (∀ a : Img α, (stitch_images cv a a).isPanorama = true →
       a.width ≤ ((stitch_images cv a a).getImg d).width ∧
       a.height ≤ ((stitch_images cv a a).getImg d).height ∧
       max a.height a.width ≤
         max ((stitch_images cv a a).getImg d).height
           ((stitch_images cv a a).getImg d).width) := by
  constructor
  · intro t q h
    exact ⟨(isPanorama_shape cv t q d h).1, (isPanorama_shape cv t q d h).2.1⟩
  · intro a h
    obtain ⟨hw, hh, -⟩ := isPanorama_shape cv a a d h
    rw [hw, hh]
    refine ⟨Nat.le_add_right _ _, Nat.le_max_left _ _, max_le_max (Nat.le_max_left _ _) ?_⟩
    exact Nat.le_add_right _ _

/-- C3 witness: the dimension facts hold on a concrete successful
stitch (`cvGood`, a 2×3 train image, a 4×5 query image). -/
theorem stitched_canvas_dimensions_witness :
    (stitch_images cvGood imgA imgB).isPanorama = true ∧
    ((stitch_images cvGood imgA imgB).getImg imgA).width = imgB.width + imgA.width ∧
    imgA.height ≤ ((stitch_images cvGood imgA imgA).getImg imgA).height :=
  ⟨rfl,
   ((stitched_canvas_dimensions cvGood imgA).1 imgA imgB rfl).1,
   ((stitched_canvas_dimensions cvGood imgA).2 imgA rfl).2.1⟩

/-- C4: on every successful pairwise stitch, each canvas pixel inside
the query image's native top-left rectangle equals the corresponding
pixel of the unwarped query photo (the query image after the pixel-wise
BGR→RGB conversion both compositing inputs undergo): the pasted query
image takes precedence over the warped train image there. -/
theorem query_paste_precedence {α δ : Type} (cv : CVLib α δ) (d t q : Img α)
    (h : (stitch_images cv t q).isPanorama = true) :
    ∀ r c : Nat, r < q.height → c < q.width →
      ((stitch_images cv t q).getImg d).pix r c = cv.bgr2rgb (q.pix r c) :=
  (isPanorama_shape cv t q d h).2.2

/-- C4 witness: paste precedence at a concrete pixel of a concrete
successful stitch. -/
theorem query_paste_precedence_witness :
    (stitch_images cvGood imgA imgB).isPanorama = true ∧
    0 < imgB.height ∧ 2 < imgB.width ∧
    ((stitch_images cvGood imgA imgB).getImg imgA).pix 0 2 =
      cvGood.bgr2rgb (imgB.pix 0 2) :=
  ⟨rfl, by decide, by decide,
   query_paste_precedence cvGood imgA imgA imgB rfl 0 2 (by decide) (by decide)⟩

lemma new_width_le (w h tw th : Nat) (hw : 0 < w) : new_width w h tw th ≤ tw := by
  unfold new_width
  have hw0 : (0 : ℚ) < (w : ℚ) := by exact_mod_cast hw
  have h1 : (w : ℚ) * scale_factor w h tw th ≤ (tw : ℚ) := by
    have h2 : scale_factor w h tw th ≤ (tw : ℚ) / (w : ℚ) := min_le_left _ _
    calc (w : ℚ) * scale_factor w h tw th
        ≤ (w : ℚ) * ((tw : ℚ) / (w : ℚ)) :=
          mul_le_mul_of_nonneg_left h2 (le_of_lt hw0)
      _ = (tw : ℚ) := by field_simp
  have h3 : ⌊(w : ℚ) * scale_factor w h tw th⌋ ≤ (tw : ℤ) := by
    have := Int.floor_le_floor h1
    simpa using this
  exact Int.toNat_le.mpr h3

lemma new_height_le (w h tw th : Nat) (hh : 0 < h) : new_height w h tw th ≤ th := by
  unfold new_height
  have hh0 : (0 : ℚ) < (h : ℚ) := by exact_mod_cast hh
  have h1 : (h : ℚ) * scale_factor w h tw th ≤ (th : ℚ) := by
    have h2 : scale_factor w h tw th ≤ (th : ℚ) / (h : ℚ) := min_le_right _ _
    calc (h : ℚ) * scale_factor w h tw th
        ≤ (h : ℚ) * ((th : ℚ) / (h : ℚ)) :=
          mul_le_mul_of_nonneg_left h2 (le_of_lt hh0)
      _ = (th : ℚ) := by field_simp
  have h3 : ⌊(h : ℚ) * scale_factor w h tw th⌋ ≤ (th : ℤ) := by
    have := Int.floor_le_floor h1
    simpa using this
  exact Int.toNat_le.mpr h3

lemma y_offset_spec (w h tw th : Nat) (hh : 0 < h) :
    0 ≤ y_offset w h tw th ∧
    (y_offset w h tw th).toNat + new_height w h tw th ≤ th := by
  have hnh := new_height_le w h tw th hh
  unfold y_offset
  omega

lemma x_offset_spec (w h tw th : Nat) (hw : 0 < w) :
    0 ≤ x_offset w h tw th ∧
    (x_offset w h tw th).toNat + new_width w h tw th ≤ tw := by
  have hnw := new_width_le w h tw th hw
  unfold x_offset
  omega

lemma target_instance_4000x2000 :
    new_width 4000 2000 1280 720 = 1280 ∧ new_height 4000 2000 1280 720 = 640 ∧
    y_offset 4000 2000 1280 720 = 40 ∧ x_offset 4000 2000 1280 720 = 0 := by
  have h1 : new_width 4000 2000 1280 720 = 1280 := by
    norm_num [new_width, scale_factor, min_def]
    rfl
  have h2 : new_height 4000 2000 1280 720 = 640 := by
    norm_num [new_height, scale_factor, min_def]
    rfl
  refine ⟨h1, h2, ?_, ?_⟩
  · unfold y_offset
    rw [h2]
    norm_num
  · unfold x_offset
    rw [h1]
    norm_num

/-- C5: for every input image with positive dimensions,
`standardize_image` returns an image of exactly the target dimensions,
with the source scaled (by the common factor `scale_factor`, the same
for both axes, so the aspect ratio is preserved up to the integer
truncation of `int(...)`) to fit inside the target box, pasted centered,
and with every pixel outside the pasted region equal to the black canvas
value; in particular a 4000×2000 input with a 1280×720 target is scaled
to exactly 1280×640 and centered with 40-pixel black bars on top and
bottom. -/
theorem standardize_image_letterboxes {α : Type}
    (resizeSample : Img α → Nat → Nat → Nat → Nat → α) (black : α)
    (image : Img α) (tw th : Nat) (hw : 0 < image.width) (hh : 0 < image.height) :
    (standardize_image resizeSample black image tw th).height = th ∧
    (standardize_image resizeSample black image tw th).width = tw ∧
    new_width image.width image.height tw th ≤ tw ∧
    new_height image.width image.height tw th ≤ th ∧
    (∀ r c : Nat,
      (r < (y_offset image.width image.height tw th).toNat ∨
       (y_offset image.width image.height tw th).toNat +
         new_height image.width image.height tw th ≤ r ∨
       c < (x_offset image.width image.height tw th).toNat ∨
       (x_offset image.width image.height tw th).toNat +
         new_width image.width image.height tw th ≤ c) →
      (standardize_image resizeSample black image tw th).pix r c = black) ∧
    (new_width 4000 2000 1280 720 = 1280 ∧ new_height 4000 2000 1280 720 = 640 ∧
     y_offset 4000 2000 1280 720 = 40 ∧ x_offset 4000 2000 1280 720 = 0) := by
  refine ⟨rfl, rfl, new_width_le _ _ _ _ hw, new_height_le _ _ _ _ hh,
    fun r c hout => ?_, target_instance_4000x2000⟩
  show (if (y_offset image.width image.height tw th).toNat ≤ r ∧
          r < (y_offset image.width image.height tw th).toNat +
            new_height image.width image.height tw th ∧
          (x_offset image.width image.height tw th).toNat ≤ c ∧
          c < (x_offset image.width image.height tw th).toNat +
            new_width image.width image.height tw th
        then _ else black) = black
  rw [if_neg]
  omega

/-- C5 witness: the hypotheses hold at a concrete 4000×2000 image with
constant pixels, resized into the default 1280×720 target. -/
theorem standardize_image_letterboxes_witness :
    0 < img4000.width ∧ 0 < img4000.height ∧
    (standardize_image (fun im _ _ r c => im.pix r c) 0 img4000
        TARGET_WIDTH TARGET_HEIGHT).height = TARGET_HEIGHT ∧
    (standardize_image (fun im _ _ r c => im.pix r c) 0 img4000
        TARGET_WIDTH TARGET_HEIGHT).width = TARGET_WIDTH :=
  ⟨by decide, by decide,
   (standardize_image_letterboxes (fun im _ _ r c => im.pix r c) 0 img4000
     TARGET_WIDTH TARGET_HEIGHT (by decide) (by decide)).1,
   (standardize_image_letterboxes (fun im _ _ r c => im.pix r c) 0 img4000
     TARGET_WIDTH TARGET_HEIGHT (by decide) (by decide)).2.1⟩

/-- C10: for every image with positive width and height, the scaled
dimensions computed inside `standardize_image` never exceed the target
dimensions, the centering offsets are non-negative (as signed Python
integers), and the paste of the resized image lies within the target
canvas bounds. -/
theorem scaled_dims_within_target (w h tw th : Nat) (hw : 0 < w) (hh : 0 < h) :
    new_width w h tw th ≤ tw ∧ new_height w h tw th ≤ th ∧
    0 ≤ y_offset w h tw th ∧ 0 ≤ x_offset w h tw th ∧
    (y_offset w h tw th).toNat + new_height w h tw th ≤ th ∧
    (x_offset w h tw th).toNat + new_width w h tw th ≤ tw :=
  ⟨new_width_le w h tw th hw, new_height_le w h tw th hh,
   (y_offset_spec w h tw th hh).1, (x_offset_spec w h tw th hw).1,
   (y_offset_spec w h tw th hh).2, (x_offset_spec w h tw th hw).2⟩

/-- C10 witness: the in-bounds facts hold at the concrete
4000×2000 → 1280×720 instance. -/
theorem scaled_dims_within_target_witness :
    0 < 4000 ∧ 0 < 2000 ∧ new_width 4000 2000 1280 720 ≤ 1280 ∧
    (y_offset 4000 2000 1280 720).toNat + new_height 4000 2000 1280 720 ≤ 720 :=
  ⟨by omega, by omega,
   (scaled_dims_within_target 4000 2000 1280 720 (by omega) (by omega)).1,
   (scaled_dims_within_target 4000 2000 1280 720 (by omega) (by omega)).2.2.2.2.1⟩

lemma any_isNone_map_some {α : Type} (l : List α) :
    ((l.map some).any fun o => o.isNone) = false := by
  induction l with
  | nil => rfl
  | cons a l ih => simp [ih]

lemma reduceOption_map_some {α : Type} (l : List α) :
    (l.map some).reduceOption = l := by
  induction l with
  | nil => rfl
  | cons a l ih => simpa using ih

/-- C6: if any uploaded file fails to decode (`cv2.imdecode` returned
`None`), the run reports the decode error, displays nothing, offers no
download, and performs zero `stitch_images` calls — stitching never
begins. -/
theorem decode_failure_halts_before_stitching {α δ : Type} (cv : CVLib α δ)
    (decoded : List (Option (Img α))) (h : none ∈ decoded) :
    runPipeline cv decoded = (⟨true, false, none, none, false⟩, 0) := by
  match decoded, h with
  | d :: ds, h =>
    have hany : ((d :: ds).any fun o => o.isNone) = true :=
      List.any_eq_true.mpr ⟨none, h, rfl⟩
    simp only [runPipeline, hany]
    rfl

/-- C6 witness: a run with one good upload and one malformed upload. -/
theorem decode_failure_halts_before_stitching_witness :
    none ∈ [some imgA, none] ∧
    runPipeline cvGood [some imgA, none] = (⟨true, false, none, none, false⟩, 0) :=
  ⟨by simp, decode_failure_halts_before_stitching cvGood [some imgA, none] (by simp)⟩

/-- C7: when a pairwise stitch returns the `None` failure signal, the
loop halts at that pair after exactly that one call (later images are
never stitched), and the run output is only the stitch error message:
no partial panorama is displayed and no download is offered. -/
theorem stitch_failure_discards_partial_results {α δ : Type} (cv : CVLib α δ) :
    (∀ (i0 : Img α) (rest : List (Img α)) (n : Nat),
       stitchFold cv i0 rest = (.failed, n) →
       runPipeline cv ((i0 :: rest).map some) =
         (⟨false, true, none, none, false⟩, n)) ∧
    (∀ (acc x : Img α) (xs : List (Img α)),
       stitch_images cv acc x = .noneSignal →
       stitchFold cv acc (x :: xs) = (.failed, 1)) := by
  constructor
  · intro i0 rest n h
    simp only [List.map_cons, runPipeline, any_isNone_map_some,
      List.any_cons, Option.isNone_some, Bool.false_or, Bool.false_eq_true,
      if_false, List.reduceOption_cons_of_some, reduceOption_map_some]
    rw [h]
    rfl
  · intro acc x xs h
    simp only [stitchFold, h]

/-- C7 witness: a concrete two-image run whose first (and only) stitch
returns `None`: one stitch call, error-only output. -/
theorem stitch_failure_discards_partial_results_witness :
    stitch_images cvFew imgA imgB = .noneSignal ∧
    stitchFold cvFew imgA [imgB] = (.failed, 1) ∧
    runPipeline cvFew ((imgA :: [imgB]).map some) =
      (⟨false, true, none, none, false⟩, 1) :=
  ⟨rfl,
   (stitch_failure_discards_partial_results cvFew).2 imgA imgB [] rfl,
   (stitch_failure_discards_partial_results cvFew).1 imgA [imgB] 1
     ((stitch_failure_discards_partial_results cvFew).2 imgA imgB [] rfl)⟩

/-- C8: the match list fed to homography estimation is the cross-check
matcher's output sorted ascending by distance, as a permutation of the
raw matcher output (nothing filtered out); when more than 4 matches
exist, `homography_stitching` passes exactly that full list — its
returned match list is the sorted list itself and the point arrays are
its element-wise projections, one entry per match. -/
theorem matches_sorted_and_fully_passed {α δ : Type} (cv : CVLib α δ)
    (t q : Img α) :
    List.Sorted (fun a b : DMatch => a.distance ≤ b.distance) (matchesOf cv t q) ∧
    (matchesOf cv t q).Perm (cv.bfmatch (detectOf cv t).2 (detectOf cv q).2) ∧
    (4 < (matchesOf cv t q).length →
      homography_stitching cv.findHomography (detectOf cv t).1 (detectOf cv q).1
          (matchesOf cv t q) 4 =
        some (matchesOf cv t q,
          (cv.findHomography
            (points_train (detectOf cv t).1 (matchesOf cv t q))
            (points_query (detectOf cv q).1 (matchesOf cv t q)) 4).1,
          (cv.findHomography
            (points_train (detectOf cv t).1 (matchesOf cv t q))
            (points_query (detectOf cv q).1 (matchesOf cv t q)) 4).2)) ∧
    (points_train (detectOf cv t).1 (matchesOf cv t q)).length =
      (matchesOf cv t q).length ∧
    (points_query (detectOf cv q).1 (matchesOf cv t q)).length =
      (matchesOf cv t q).length :=
  ⟨List.sorted_insertionSort _ _,
   List.perm_insertionSort _ _,
   fun h => homography_stitching_eq_some _ _ _ _ _ h,
   List.length_map _ _,
   List.length_map _ _⟩

/-- C8 witness: on a concrete pair with 5 matches, the sorted list is
passed whole into homography estimation. -/
theorem matches_sorted_and_fully_passed_witness :
    4 < (matchesOf cvGood imgA imgB).length ∧
    homography_stitching cvGood.findHomography (detectOf cvGood imgA).1
        (detectOf cvGood imgB).1 (matchesOf cvGood imgA imgB) 4 =
      some (matchesOf cvGood imgA imgB,
        (cvGood.findHomography
          (points_train (detectOf cvGood imgA).1 (matchesOf cvGood imgA imgB))
          (points_query (detectOf cvGood imgB).1 (matchesOf cvGood imgA imgB)) 4).1,
        (cvGood.findHomography
          (points_train (detectOf cvGood imgA).1 (matchesOf cvGood imgA imgB))
          (points_query (detectOf cvGood imgB).1 (matchesOf cvGood imgA imgB)) 4).2) :=
  ⟨by rw [show (matchesOf cvGood imgA imgB).length = 5 from rfl]; omega,
   (matches_sorted_and_fully_passed cvGood imgA imgB).2.2.1
     (by rw [show (matchesOf cvGood imgA imgB).length = 5 from rfl]; omega)⟩

/-- C9: a run with exactly one successfully decoded image performs zero
`stitch_images` calls; the download offered is that decoded image
unchanged, and the display shows the same image (after the pixel-wise
BGR→RGB conversion `PIL.Image.fromarray` rendering applies). -/
theorem single_image_passthrough {α δ : Type} (cv : CVLib α δ) (img : Img α) :
    runPipeline cv [some img] =
      (⟨false, false, some (cvtImage cv.bgr2rgb img), some img, false⟩, 0) := rfl
